import Mathlib

/-!
# Verification of the mini hydraulic power plant calculator

Shallow embedding of the computation core of `src/app.py`:
unit converters, power formulas, penstock diameter and turbine
classification, plus the evaluation pipeline and the display branch
for the penstock diameter.  Values that the program holds as Python
floats are modelled as real numbers; the fallibility of `math.sqrt`
(which raises a ValueError on a negative argument) is modelled with
`Except`.
-/

namespace MiniHydro

noncomputable section

/-- `cusec_to_m3s` (src/app.py, lines 5-7): convert discharge from
cusec to cubic metres per second. -/
def cusec_to_m3s (Q_cusec : ℝ) : ℝ :=
  Q_cusec * 0.0283168

/-- `fps_to_mps` (src/app.py, lines 9-11): convert velocity from
feet per second to metres per second. -/
def fps_to_mps (v_fps : ℝ) : ℝ :=
  v_fps * 0.3048

/-- `hydraulic_power` (src/app.py, lines 13-15): theoretical hydraulic
power in watts. -/
def hydraulic_power (rho g Q_m3s H_m : ℝ) : ℝ :=
  rho * g * Q_m3s * H_m

/-- `actual_power` (src/app.py, lines 17-19): actual electrical output
power in watts. -/
def actual_power (P_hydraulic_W eta_turbine eta_generator : ℝ) : ℝ :=
  P_hydraulic_W * eta_turbine * eta_generator

/-- Python `math.sqrt`: raises `ValueError: math domain error` when the
argument is negative, otherwise returns the non-negative square root. -/
def pySqrt (x : ℝ) : Except String ℝ :=
  if x < 0 then Except.error "math domain error"
  else Except.ok (Real.sqrt x)

/-- `penstock_diameter` (src/app.py, lines 21-26): returns `none`
(Python `None`) when the velocity is non-positive, otherwise computes
`sqrt((4 * Q) / (pi * v))` with Python `math.sqrt`, which can raise. -/
def penstock_diameter (Q_m3s v_mps : ℝ) : Except String (Option ℝ) :=
  if v_mps ≤ 0 then Except.ok none
  else (pySqrt ((4 * Q_m3s) / (Real.pi * v_mps))).map some

/-- `suggest_turbine` (src/app.py, lines 28-35): three-way turbine
classification keyed on net head; the Python chained comparison
`50 <= H <= 300` is the conjunction of the two comparisons. -/
def suggest_turbine (H : ℝ) : String :=
  if H > 300 then "Pelton Turbine (High Head)"
  else if 50 ≤ H ∧ H ≤ 300 then "Francis Turbine (Medium Head)"
  else "Kaplan / Propeller Turbine (Low Head)"

/-- The values one evaluation cycle of the script computes
(src/app.py, lines 54-64). -/
structure Results where
  Q_m3s : ℝ
  v_mps : ℝ
  P_hydraulic_W : ℝ
  P_actual_W : ℝ
  D_penstock : Except String (Option ℝ)
  turbine : String

/-- The evaluation pipeline (src/app.py, lines 54-64 and 90): unit
conversion, then powers with the fixed constants `rho = 1000`,
`g = 9.81`, then penstock diameter and turbine suggestion. -/
def evaluate (Q_cusec v_fps H_m eta_turbine eta_generator : ℝ) : Results :=
  let Q_m3s := cusec_to_m3s Q_cusec
  let v_mps := fps_to_mps v_fps
  let rho : ℝ := 1000
  let g : ℝ := 9.81
  let P_hydraulic_W := hydraulic_power rho g Q_m3s H_m
  let P_actual_W := actual_power P_hydraulic_W eta_turbine eta_generator
  { Q_m3s := Q_m3s
    v_mps := v_mps
    P_hydraulic_W := P_hydraulic_W
    P_actual_W := P_actual_W
    D_penstock := penstock_diameter Q_m3s v_mps
    turbine := suggest_turbine H_m }

/-- Python truthiness of the value bound to `D_penstock` at line 83 of
src/app.py (`if D_penstock:`): `None` is falsy and a float is truthy
exactly when it is non-zero. -/
def penstock_truthy : Option ℝ → Prop
  | none => False
  | some x => x ≠ 0

/-- The display branch at src/app.py lines 83-86 renders the message
"Invalid velocity selected." exactly when `D_penstock` is not truthy;
otherwise it renders the numeric diameter. -/
def shows_velocity_error (d : Option ℝ) : Prop :=
  ¬ penstock_truthy d

end

/-! ## Helper lemmas -/

/-- With a positive velocity and a non-negative discharge the guard and
the sqrt domain check both pass, so `penstock_diameter` returns the
continuity-equation diameter. -/
lemma penstock_diameter_ok (Q_m3s v_mps : ℝ) (hv : 0 < v_mps) (hQ : 0 ≤ Q_m3s) :
    penstock_diameter Q_m3s v_mps =
      Except.ok (some (Real.sqrt (4 * Q_m3s / (Real.pi * v_mps)))) := by
  have hvn : ¬ v_mps ≤ 0 := not_le.mpr hv
  have hden : 0 < Real.pi * v_mps := mul_pos Real.pi_pos hv
  have harg : 0 ≤ (4 * Q_m3s) / (Real.pi * v_mps) :=
    div_nonneg (by linarith) hden.le
  unfold penstock_diameter pySqrt
  rw [if_neg hvn, if_neg (not_lt.mpr harg)]
  rfl

/-- With a positive velocity and a negative discharge, the sqrt
argument is negative, so Python `math.sqrt` raises. -/
lemma penstock_diameter_raises (Q_m3s v_mps : ℝ) (hv : 0 < v_mps) (hQ : Q_m3s < 0) :
    penstock_diameter Q_m3s v_mps = Except.error "math domain error" := by
  have hvn : ¬ v_mps ≤ 0 := not_le.mpr hv
  have hden : 0 < Real.pi * v_mps := mul_pos Real.pi_pos hv
  have harg : (4 * Q_m3s) / (Real.pi * v_mps) < 0 :=
    div_neg_of_neg_of_pos (by linarith) hden
  unfold penstock_diameter pySqrt
  rw [if_neg hvn, if_pos harg]
  rfl

/-! ## Claims -/

/-- Claim C1: `suggest_turbine` is a total three-way classification of
net head: `H > 300` yields Pelton, `50 ≤ H ≤ 300` yields Francis, and
every other real value (including negatives) yields Kaplan/Propeller,
so exactly one category is produced per head; in particular the
boundary cases 300, 300.0001, 50 and 49.999 classify as Francis,
Pelton, Francis and Kaplan/Propeller respectively. -/
theorem C1_classifyTurbine_total (H : ℝ) :
    (H > 300 → suggest_turbine H = "Pelton Turbine (High Head)") ∧
    (50 ≤ H ∧ H ≤ 300 → suggest_turbine H = "Francis Turbine (Medium Head)") ∧
    (¬ H > 300 ∧ ¬ (50 ≤ H ∧ H ≤ 300) →
      suggest_turbine H = "Kaplan / Propeller Turbine (Low Head)") ∧
    (suggest_turbine H = "Pelton Turbine (High Head)" ∨
      suggest_turbine H = "Francis Turbine (Medium Head)" ∨
      suggest_turbine H = "Kaplan / Propeller Turbine (Low Head)") ∧
    suggest_turbine (300 : ℝ) = "Francis Turbine (Medium Head)" ∧
    suggest_turbine (300.0001 : ℝ) = "Pelton Turbine (High Head)" ∧
    suggest_turbine (50 : ℝ) = "Francis Turbine (Medium Head)" ∧
    suggest_turbine (49.999 : ℝ) = "Kaplan / Propeller Turbine (Low Head)" := by
  refine ⟨?_, ?_, ?_, ?_, ?_, ?_, ?_, ?_⟩
  · intro h
    simp only [suggest_turbine, if_pos h]
  · intro h
    have hng : ¬ H > 300 := not_lt.mpr h.2
    simp only [suggest_turbine, if_neg hng, if_pos h]
  · intro h
    simp only [suggest_turbine, if_neg h.1, if_neg h.2]
  · by_cases h1 : H > 300
    · exact Or.inl (by simp only [suggest_turbine, if_pos h1])
    · by_cases h2 : 50 ≤ H ∧ H ≤ 300
      · exact Or.inr (Or.inl (by simp only [suggest_turbine, if_neg h1, if_pos h2]))
      · exact Or.inr (Or.inr (by simp only [suggest_turbine, if_neg h1, if_neg h2]))
  · have h : (50 : ℝ) ≤ 300 ∧ (300 : ℝ) ≤ 300 := by norm_num
    simp only [suggest_turbine, if_neg (lt_irrefl (300 : ℝ)), if_pos h]
  · have h : (300.0001 : ℝ) > 300 := by norm_num
    simp only [suggest_turbine, if_pos h]
  · have hng : ¬ (50 : ℝ) > 300 := by norm_num
    have h : (50 : ℝ) ≤ 50 ∧ (50 : ℝ) ≤ 300 := by norm_num
    simp only [suggest_turbine, if_neg hng, if_pos h]
  · have hng : ¬ (49.999 : ℝ) > 300 := by norm_num
    have h : ¬ ((50 : ℝ) ≤ 49.999 ∧ (49.999 : ℝ) ≤ 300) := by
      intro hc
      have := hc.1
      norm_num at this
    simp only [suggest_turbine, if_neg hng, if_neg h]

/-- Witness for C1: the classification evaluated at concrete heads. -/
theorem C1_classifyTurbine_total_witness :
    suggest_turbine (350 : ℝ) = "Pelton Turbine (High Head)" :=
  (C1_classifyTurbine_total 350).1 (by norm_num)

/-- Claim C2: `penstock_diameter` returns the absent value `none` if
and only if `v_mps ≤ 0`; for every `v_mps > 0` and `Q_m3s > 0` it
returns a present, positive real diameter. -/
theorem C2_penstockDiameter_absent_iff (Q_m3s v_mps : ℝ) :
    (penstock_diameter Q_m3s v_mps = Except.ok none ↔ v_mps ≤ 0) ∧
    (0 < v_mps → 0 < Q_m3s →
      ∃ d : ℝ, 0 < d ∧ penstock_diameter Q_m3s v_mps = Except.ok (some d)) := by
  constructor
  · constructor
    · intro h
      by_contra hv
      have hv' : ¬ v_mps ≤ 0 := hv
      unfold penstock_diameter at h
      rw [if_neg hv'] at h
      unfold pySqrt at h
      by_cases hneg : (4 * Q_m3s) / (Real.pi * v_mps) < 0
      · rw [if_pos hneg] at h
        simp [Except.map] at h
      · rw [if_neg hneg] at h
        simp [Except.map] at h
    · intro hv
      unfold penstock_diameter
      rw [if_pos hv]
  · intro hv hQ
    have hvn : ¬ v_mps ≤ 0 := not_le.mpr hv
    have hden : 0 < Real.pi * v_mps := mul_pos Real.pi_pos hv
    have harg : 0 < (4 * Q_m3s) / (Real.pi * v_mps) :=
      div_pos (by linarith) hden
    refine ⟨Real.sqrt ((4 * Q_m3s) / (Real.pi * v_mps)), Real.sqrt_pos.mpr harg, ?_⟩
    unfold penstock_diameter pySqrt
    rw [if_neg hvn, if_neg (not_lt.mpr harg.le)]
    rfl

/-- Witness for C2 at the default pipeline values in SI units. -/
theorem C2_penstockDiameter_absent_iff_witness :
    ∃ d : ℝ, 0 < d ∧ penstock_diameter 2.83168 1.8288 = Except.ok (some d) :=
  (C2_penstockDiameter_absent_iff 2.83168 1.8288).2 (by norm_num) (by norm_num)

/-- Claim C3: for every `v_mps > 0` and `Q_m3s ≥ 0`,
`penstock_diameter` returns exactly `sqrt(4 * Q_m3s / (pi * v_mps))`,
a non-negative real that is zero if and only if `Q_m3s` is zero. -/
theorem C3_penstockDiameter_formula (Q_m3s v_mps : ℝ)
    (hv : 0 < v_mps) (hQ : 0 ≤ Q_m3s) :
    penstock_diameter Q_m3s v_mps =
      Except.ok (some (Real.sqrt (4 * Q_m3s / (Real.pi * v_mps)))) ∧
    0 ≤ Real.sqrt (4 * Q_m3s / (Real.pi * v_mps)) ∧
    (Real.sqrt (4 * Q_m3s / (Real.pi * v_mps)) = 0 ↔ Q_m3s = 0) := by
  have hden : 0 < Real.pi * v_mps := mul_pos Real.pi_pos hv
  have harg : 0 ≤ (4 * Q_m3s) / (Real.pi * v_mps) :=
    div_nonneg (by linarith) hden.le
  refine ⟨penstock_diameter_ok Q_m3s v_mps hv hQ, Real.sqrt_nonneg _, ?_⟩
  rw [Real.sqrt_eq_zero harg, div_eq_zero_iff]
  constructor
  · intro h
    rcases h with h | h
    · linarith
    · exact absurd h hden.ne'
  · intro h
    exact Or.inl (by rw [h]; ring)

/-- Witness for C3 at zero discharge and unit velocity. -/
theorem C3_penstockDiameter_formula_witness :
    penstock_diameter 0 1 =
      Except.ok (some (Real.sqrt (4 * 0 / (Real.pi * 1)))) ∧
    0 ≤ Real.sqrt (4 * 0 / (Real.pi * 1)) ∧
    (Real.sqrt (4 * 0 / (Real.pi * 1)) = 0 ↔ (0 : ℝ) = 0) :=
  C3_penstockDiameter_formula 0 1 (by norm_num) le_rfl

/-- Claim C6: `hydraulic_power` returns exactly `rho * g * Q * H`, the
pipeline invokes it with the fixed constants `rho = 1000`, `g = 9.81`,
and for `Q ≥ 0`, `H ≥ 0` the result at those constants is non-negative
and zero exactly when `Q = 0` or `H = 0`. -/
theorem C6_hydraulicPower (rho g Q_m3s H_m : ℝ)
    (hQ : 0 ≤ Q_m3s) (hH : 0 ≤ H_m) :
    hydraulic_power rho g Q_m3s H_m = rho * g * Q_m3s * H_m ∧
    (∀ Q_cusec v_fps et eg : ℝ,
      (evaluate Q_cusec v_fps H_m et eg).P_hydraulic_W =
        hydraulic_power 1000 9.81 (cusec_to_m3s Q_cusec) H_m) ∧
    0 ≤ hydraulic_power 1000 9.81 Q_m3s H_m ∧
    (hydraulic_power 1000 9.81 Q_m3s H_m = 0 ↔ Q_m3s = 0 ∨ H_m = 0) := by
  refine ⟨rfl, fun _ _ _ _ => rfl, ?_, ?_⟩
  · unfold hydraulic_power
    positivity
  · unfold hydraulic_power
    constructor
    · intro h
      rcases mul_eq_zero.mp h with h' | h'
      · rcases mul_eq_zero.mp h' with h'' | h''
        · norm_num at h''
        · exact Or.inl h''
      · exact Or.inr h'
    · intro h
      rcases h with h | h <;> rw [h] <;> ring

/-- Witness for C6 at the default pipeline values. -/
theorem C6_hydraulicPower_witness :
    hydraulic_power 1000 9.81 2.83168 20 = 1000 * 9.81 * 2.83168 * 20 ∧
    (∀ Q_cusec v_fps et eg : ℝ,
      (evaluate Q_cusec v_fps 20 et eg).P_hydraulic_W =
        hydraulic_power 1000 9.81 (cusec_to_m3s Q_cusec) 20) ∧
    0 ≤ hydraulic_power 1000 9.81 2.83168 20 ∧
    (hydraulic_power 1000 9.81 2.83168 20 = 0 ↔ (2.83168 : ℝ) = 0 ∨ (20 : ℝ) = 0) :=
  C6_hydraulicPower 1000 9.81 2.83168 20 (by norm_num) (by norm_num)

/-- Claim C7: `actual_power` returns exactly
`hydraulicWatts * etaTurbine * etaGenerator`, and for efficiencies in
`(0, 1]` the electrical watts never exceed the hydraulic watts; the
first argument is a hydraulic-watts value, which the data model
constrains to be non-negative. -/
theorem C7_electricalPower_le (P eta_turbine eta_generator : ℝ)
    (hP : 0 ≤ P) (h1 : 0 < eta_turbine) (h2 : eta_turbine ≤ 1)
    (h3 : 0 < eta_generator) (h4 : eta_generator ≤ 1) :
    actual_power P eta_turbine eta_generator = P * eta_turbine * eta_generator ∧
    actual_power P eta_turbine eta_generator ≤ P := by
  refine ⟨rfl, ?_⟩
  unfold actual_power
  have a1 : P * eta_turbine ≤ P := mul_le_of_le_one_right hP h2
  have a0 : 0 ≤ P * eta_turbine := mul_nonneg hP h1.le
  have a2 : P * eta_turbine * eta_generator ≤ P * eta_turbine :=
    mul_le_of_le_one_right a0 h4
  linarith

/-- Witness for C7 at the default pipeline values. -/
theorem C7_electricalPower_le_witness :
    actual_power 555575.616 0.85 0.9 = 555575.616 * 0.85 * 0.9 ∧
    actual_power 555575.616 0.85 0.9 ≤ 555575.616 :=
  C7_electricalPower_le 555575.616 0.85 0.9 (by norm_num) (by norm_num)
    (by norm_num) (by norm_num) (by norm_num)

/-- Claim C8: the unit converters are exact linear scalings with no
clamping and no error conditions: for every `cusec ≥ 0`,
`cusec_to_m3s cusec = cusec * 0.0283168`, and for every real
`ftPerSec`, `fps_to_mps ftPerSec = ftPerSec * 0.3048`. -/
theorem C8_converters_exact (cusec ftPerSec : ℝ) (hc : 0 ≤ cusec) :
    cusec_to_m3s cusec = cusec * 0.0283168 ∧
    fps_to_mps ftPerSec = ftPerSec * 0.3048 :=
  ⟨rfl, rfl⟩

/-- Witness for C8 at the default inputs 100 cusec and 6 ft/s. -/
theorem C8_converters_exact_witness :
    cusec_to_m3s 100 = 100 * 0.0283168 ∧ fps_to_mps 6 = 6 * 0.3048 :=
  C8_converters_exact 100 6 (by norm_num)

/-- Counterexample to claim C4: an exception does propagate out of a
computation-core operation for some real inputs. At discharge
`Q_m3s = -1` and velocity `v_mps = 1`, `penstock_diameter` passes its
velocity guard and calls Python `math.sqrt` on the negative argument
`4 * (-1) / (pi * 1)`, which raises ValueError (math domain error)
instead of returning a value. -/
theorem C4_counterexample :
    penstock_diameter (-1) 1 = Except.error "math domain error" :=
  penstock_diameter_raises (-1) 1 (by norm_num) (by norm_num)

/-- Claim C4 as amended: the converters, power formulas and turbine
classification are total side-effect-free functions of their arguments
for all real inputs, and `penstock_diameter` is the only partial
operation; its behaviour is: the documented absent value when
`v_mps ≤ 0`, a present real diameter when `v_mps > 0` and `Q_m3s ≥ 0`,
and a propagated math-domain exception when `v_mps > 0` and
`Q_m3s < 0`. -/
theorem C4_total_except_penstock
    (Q_m3s v_mps H_m cusec ftPerSec rho g P eta_t eta_g : ℝ) :
    cusec_to_m3s cusec = cusec * 0.0283168 ∧
    fps_to_mps ftPerSec = ftPerSec * 0.3048 ∧
    hydraulic_power rho g Q_m3s H_m = rho * g * Q_m3s * H_m ∧
    actual_power P eta_t eta_g = P * eta_t * eta_g ∧
    (suggest_turbine H_m = "Pelton Turbine (High Head)" ∨
      suggest_turbine H_m = "Francis Turbine (Medium Head)" ∨
      suggest_turbine H_m = "Kaplan / Propeller Turbine (Low Head)") ∧
    (v_mps ≤ 0 → penstock_diameter Q_m3s v_mps = Except.ok none) ∧
    (0 < v_mps → 0 ≤ Q_m3s → penstock_diameter Q_m3s v_mps =
      Except.ok (some (Real.sqrt (4 * Q_m3s / (Real.pi * v_mps))))) ∧
    (0 < v_mps → Q_m3s < 0 →
      penstock_diameter Q_m3s v_mps = Except.error "math domain error") := by
  refine ⟨rfl, rfl, rfl, rfl, ?_, ?_, ?_, ?_⟩
  · by_cases h1 : H_m > 300
    · exact Or.inl (by simp only [suggest_turbine, if_pos h1])
    · by_cases h2 : 50 ≤ H_m ∧ H_m ≤ 300
      · exact Or.inr (Or.inl (by simp only [suggest_turbine, if_neg h1, if_pos h2]))
      · exact Or.inr (Or.inr (by simp only [suggest_turbine, if_neg h1, if_neg h2]))
  · intro hv
    unfold penstock_diameter
    rw [if_pos hv]
  · intro hv hQ
    exact penstock_diameter_ok Q_m3s v_mps hv hQ
  · intro hv hQ
    exact penstock_diameter_raises Q_m3s v_mps hv hQ

/-- Witness for the amended C4: the three `penstock_diameter` regimes
at concrete inputs. -/
theorem C4_total_except_penstock_witness :
    penstock_diameter 2.83168 (-1) = Except.ok none ∧
    penstock_diameter 2.83168 1.8288 =
      Except.ok (some (Real.sqrt (4 * 2.83168 / (Real.pi * 1.8288)))) ∧
    penstock_diameter (-2) 1.8288 = Except.error "math domain error" :=
  ⟨(C4_total_except_penstock 2.83168 (-1) 20 100 6 1000 9.81 0 0.85 0.9).2.2.2.2.2.1
      (by norm_num),
    (C4_total_except_penstock 2.83168 1.8288 20 100 6 1000 9.81 0 0.85 0.9).2.2.2.2.2.2.1
      (by norm_num) (by norm_num),
    (C4_total_except_penstock (-2) 1.8288 20 100 6 1000 9.81 0 0.85 0.9).2.2.2.2.2.2.2
      (by norm_num) (by norm_num)⟩

/-- Counterexample to claim C5: the display branch does not show the
error message only when velocity is non-positive. At
`Q_cusec = 0, v_fps = 6` the velocity in metres per second is
`1.8288 > 0`, yet the computed diameter is `0.0`, which the Python
truthiness test `if D_penstock:` treats like `None`, so the program
renders the error message instead of a numeric diameter. -/
theorem C5_counterexample :
    (evaluate 0 6 20 0.85 0.9).v_mps = 1.8288 ∧ (0 : ℝ) < 1.8288 ∧
    (evaluate 0 6 20 0.85 0.9).D_penstock = Except.ok (some 0) ∧
    shows_velocity_error (some 0) := by
  refine ⟨?_, by norm_num, ?_, ?_⟩
  · show fps_to_mps 6 = 1.8288
    unfold fps_to_mps
    norm_num
  · show penstock_diameter (cusec_to_m3s 0) (fps_to_mps 6) = Except.ok (some 0)
    have h0 : cusec_to_m3s 0 = 0 := by
      unfold cusec_to_m3s
      ring
    have hv : fps_to_mps 6 = 1.8288 := by
      unfold fps_to_mps
      norm_num
    rw [h0, hv, penstock_diameter_ok 0 1.8288 (by norm_num) le_rfl]
    norm_num
  · intro h
    exact h rfl

/-- Claim C5 as amended: for non-negative discharge, the display branch
shows the error message exactly when the velocity is non-positive or
the converted discharge is zero (Python truthiness conflates the
diameter `0.0` with `None`); a numeric diameter is shown otherwise,
and the power figures and the turbine recommendation are computed from
the inputs regardless of which branch is taken. -/
theorem C5_display_branch (Q_cusec v_fps H_m eta_t eta_g : ℝ) (hQ : 0 ≤ Q_cusec) :
    ∃ d : Option ℝ,
      (evaluate Q_cusec v_fps H_m eta_t eta_g).D_penstock = Except.ok d ∧
      (shows_velocity_error d ↔
        fps_to_mps v_fps ≤ 0 ∨ cusec_to_m3s Q_cusec = 0) ∧
      (evaluate Q_cusec v_fps H_m eta_t eta_g).P_hydraulic_W =
        hydraulic_power 1000 9.81 (cusec_to_m3s Q_cusec) H_m ∧
      (evaluate Q_cusec v_fps H_m eta_t eta_g).P_actual_W =
        actual_power (hydraulic_power 1000 9.81 (cusec_to_m3s Q_cusec) H_m)
          eta_t eta_g ∧
      (evaluate Q_cusec v_fps H_m eta_t eta_g).turbine = suggest_turbine H_m := by
  have hQm : 0 ≤ cusec_to_m3s Q_cusec := by
    unfold cusec_to_m3s
    positivity
  by_cases hv : fps_to_mps v_fps ≤ 0
  · refine ⟨none, ?_, ?_, rfl, rfl, rfl⟩
    · show penstock_diameter (cusec_to_m3s Q_cusec) (fps_to_mps v_fps) =
        Except.ok none
      unfold penstock_diameter
      rw [if_pos hv]
    · constructor
      · intro _
        exact Or.inl hv
      · intro _ h
        exact h
  · have hv' : 0 < fps_to_mps v_fps := not_le.mp hv
    have hden : 0 < Real.pi * fps_to_mps v_fps := mul_pos Real.pi_pos hv'
    have harg : 0 ≤ 4 * cusec_to_m3s Q_cusec / (Real.pi * fps_to_mps v_fps) :=
      div_nonneg (by linarith) hden.le
    refine ⟨some (Real.sqrt (4 * cusec_to_m3s Q_cusec /
      (Real.pi * fps_to_mps v_fps))), ?_, ?_, rfl, rfl, rfl⟩
    · exact penstock_diameter_ok (cusec_to_m3s Q_cusec) (fps_to_mps v_fps) hv' hQm
    · rw [shows_velocity_error, penstock_truthy]
      rw [not_not, Real.sqrt_eq_zero harg, div_eq_zero_iff]
      constructor
      · intro h
        rcases h with h | h
        · exact Or.inr (by linarith)
        · exact absurd h hden.ne'
      · intro h
        rcases h with h | h
        · exact absurd h hv
        · exact Or.inl (by rw [h]; ring)

/-- Witness for the amended C5 at zero discharge and positive
velocity. -/
theorem C5_display_branch_witness :
    ∃ d : Option ℝ,
      (evaluate 0 6 20 0.85 0.9).D_penstock = Except.ok d ∧
      (shows_velocity_error d ↔
        fps_to_mps 6 ≤ 0 ∨ cusec_to_m3s 0 = 0) ∧
      (evaluate 0 6 20 0.85 0.9).P_hydraulic_W =
        hydraulic_power 1000 9.81 (cusec_to_m3s 0) 20 ∧
      (evaluate 0 6 20 0.85 0.9).P_actual_W =
        actual_power (hydraulic_power 1000 9.81 (cusec_to_m3s 0) 20) 0.85 0.9 ∧
      (evaluate 0 6 20 0.85 0.9).turbine = suggest_turbine 20 :=
  C5_display_branch 0 6 20 0.85 0.9 le_rfl

/-- Counterexample to claim C9: on the scenario inputs the hydraulic
power is exactly `1000 * 9.81 * 2.83168 * 20 = 555575.616` watts, more
than 100 watts away from the value 555458.5 the claim gives for that
very product, so "approximately 555458.5 W" is false. -/
theorem C9_counterexample :
    hydraulic_power 1000 9.81 (cusec_to_m3s 100) 20 = 555575.616 ∧
    (100 : ℝ) < |555575.616 - 555458.5| := by
  constructor
  · unfold hydraulic_power cusec_to_m3s
    norm_num
  · rw [abs_of_nonneg (by norm_num)]
    norm_num

/-- Claim C9 as amended: on inputs `Q_cusec = 100, v_fps = 6,
H_m = 20, etaTurbine = 0.85, etaGenerator = 0.90` the pipeline yields
`Q_m3s = 2.83168`, `v_mps = 1.8288`, hydraulic power
`1000 * 9.81 * 2.83168 * 20 = 555575.616 W`, electrical power
`425015.34624 W` (approximately 0.425 MW), a penstock diameter
`sqrt(4 * 2.83168 / (pi * 1.8288))` of approximately 1.404 m, and the
Kaplan/Propeller recommendation. -/
theorem C9_end_to_end :
    (evaluate 100 6 20 0.85 0.9).Q_m3s = 2.83168 ∧
    (evaluate 100 6 20 0.85 0.9).v_mps = 1.8288 ∧
    (evaluate 100 6 20 0.85 0.9).P_hydraulic_W = 555575.616 ∧
    (evaluate 100 6 20 0.85 0.9).P_actual_W = 425015.34624 ∧
    |(evaluate 100 6 20 0.85 0.9).P_actual_W / 1000000 - 0.425| < 0.001 ∧
    (evaluate 100 6 20 0.85 0.9).turbine =
      "Kaplan / Propeller Turbine (Low Head)" ∧
    ∃ d : ℝ,
      (evaluate 100 6 20 0.85 0.9).D_penstock = Except.ok (some d) ∧
      d = Real.sqrt (4 * 2.83168 / (Real.pi * 1.8288)) ∧
      |d - 1.404| < 0.001 := by
  have hQ : cusec_to_m3s 100 = 2.83168 := by
    unfold cusec_to_m3s
    norm_num
  have hv : fps_to_mps 6 = 1.8288 := by
    unfold fps_to_mps
    norm_num
  have hP : hydraulic_power 1000 9.81 (cusec_to_m3s 100) 20 = 555575.616 := by
    rw [hQ]
    unfold hydraulic_power
    norm_num
  have hA : actual_power (hydraulic_power 1000 9.81 (cusec_to_m3s 100) 20)
      0.85 0.9 = 425015.34624 := by
    rw [hP]
    unfold actual_power
    norm_num
  refine ⟨hQ, hv, hP, hA, ?_, ?_, ?_⟩
  · show |actual_power (hydraulic_power 1000 9.81 (cusec_to_m3s 100) 20)
      0.85 0.9 / 1000000 - 0.425| < 0.001
    rw [hA]
    rw [abs_of_nonneg (by norm_num)]
    norm_num
  · show suggest_turbine 20 = "Kaplan / Propeller Turbine (Low Head)"
    have h1 : ¬ (20 : ℝ) > 300 := by norm_num
    have h2 : ¬ ((50 : ℝ) ≤ 20 ∧ (20 : ℝ) ≤ 300) := by
      intro h
      have := h.1
      norm_num at this
    simp only [suggest_turbine, if_neg h1, if_neg h2]
  · refine ⟨Real.sqrt (4 * 2.83168 / (Real.pi * 1.8288)), ?_, rfl, ?_⟩
    · show penstock_diameter (cusec_to_m3s 100) (fps_to_mps 6) =
        Except.ok (some (Real.sqrt (4 * 2.83168 / (Real.pi * 1.8288))))
      rw [hQ, hv]
      exact penstock_diameter_ok 2.83168 1.8288 (by norm_num) (by norm_num)
    · have hπl : (3.141592 : ℝ) < Real.pi := Real.pi_gt_d6
      have hπu : Real.pi < 3.141593 := Real.pi_lt_d6
      have hden : (0 : ℝ) < Real.pi * 1.8288 := by
        have := Real.pi_pos
        nlinarith
      have hlow : (1.403 : ℝ) < Real.sqrt (4 * 2.83168 / (Real.pi * 1.8288)) := by
        rw [Real.lt_sqrt (by norm_num)]
        rw [lt_div_iff hden]
        nlinarith
      have hhigh : Real.sqrt (4 * 2.83168 / (Real.pi * 1.8288)) < 1.405 := by
        rw [Real.sqrt_lt' (by norm_num)]
        rw [div_lt_iff hden]
        nlinarith
      rw [abs_lt]
      constructor
      · linarith
      · linarith

/-- Claim C10: the display branch distinguishes present from absent
diameters by Python truthiness, which conflates the diameter value
`0.0` with `None`: for zero discharge and any positive velocity the
pipeline computes the diameter `0.0`, the truthiness test fails on it,
and the program renders the "Invalid velocity selected." error message
instead of a numeric diameter. -/
theorem C10_truthiness_zero_discharge (v_fps H_m eta_t eta_g : ℝ)
    (hv : 0 < v_fps) :
    (evaluate 0 v_fps H_m eta_t eta_g).D_penstock = Except.ok (some 0) ∧
    ¬ penstock_truthy (some 0) ∧
    shows_velocity_error (some 0) ∧
    ¬ penstock_truthy (none : Option ℝ) := by
  have h0 : cusec_to_m3s 0 = 0 := by
    unfold cusec_to_m3s
    ring
  have hvm : 0 < fps_to_mps v_fps := by
    unfold fps_to_mps
    positivity
  refine ⟨?_, ?_, ?_, ?_⟩
  · show penstock_diameter (cusec_to_m3s 0) (fps_to_mps v_fps) =
      Except.ok (some 0)
    rw [h0, penstock_diameter_ok 0 (fps_to_mps v_fps) hvm le_rfl]
    norm_num
  · intro h
    exact h rfl
  · intro h
    exact h rfl
  · intro h
    exact h

/-- Witness for C10 at the default velocity input of 6 ft/s. -/
theorem C10_truthiness_zero_discharge_witness :
    (evaluate 0 6 20 0.85 0.9).D_penstock = Except.ok (some 0) ∧
    ¬ penstock_truthy (some 0) ∧
    shows_velocity_error (some 0) ∧
    ¬ penstock_truthy (none : Option ℝ) :=
  C10_truthiness_zero_discharge 6 20 0.85 0.9 (by norm_num)

end MiniHydro
